import Mathlib

/-!
Shallow embedding of the Azure provisioning components of the
vscode-iot-workbench repository: the `IoTHub` component (part_000),
`AzureFunctions` (src/Models/AzureFunctions.ts) and `AzureOperator`
(src/AzureOperator.ts).  External effects (VS Code quick picks, the Azure
IoT Toolkit, VS Code commands, the ARM website client, the config store)
are modelled as an environment record supplying the result of each call;
each operation returns its result together with the list of config updates
it performed and a trace of the external steps it executed, in order.
-/

/-! ### Regex capture

All three regexes in the source have the shape `pat([^c]*)` used with
JavaScript `String.prototype.match` (non-global): find the first index at
which the literal `pat` occurs, and capture the maximal following run of
characters different from `c`.
`/SharedAccessKey=([^;]*)/` in the IoTHub component and
`/\/resourceGroups\/([^\/]*)/`, `/\/sites\/([^\/]*)/` in AzureFunctions
are all instances. -/

/-! ### Config store and the IoTHub component -/

/-! ### The AzureFunctions component -/

/-! ### The AzureOperator driver -/

/-- First-match capture of `pat([^stop]*)` over a list of characters:
scan left to right for the first position where `pat` occurs, then return
the longest following run of characters different from `stop`.  `none`
when `pat` does not occur. -/
def matchCapture (pat : List Char) (stop : Char) : List Char → Option (List Char)
  | [] => none
  | c :: cs =>
    if pat.isPrefixOf (c :: cs) then
      some (((c :: cs).drop pat.length).takeWhile (fun x => x != stop))
    else
      matchCapture pat stop cs

/-- String wrapper for `matchCapture`. -/
def matchCaptureStr (pat : String) (stop : Char) (s : String) : Option String :=
  (matchCapture pat.data stop s.data).map (fun l => ⟨l⟩)

/-- `iothub.iotHubConnectionString.match(/SharedAccessKey=([^;]*)/)`,
returning the captured group. -/
def matchSharedAccessKey (s : String) : Option String :=
  matchCaptureStr "SharedAccessKey=" ';' s

/-- Config keys referenced via `ConfigKey` in `constants`. -/
inductive ConfigKey
  | iotHubConnectionString
  | eventHubConnectionString
  | eventHubConnectionPath
  | functionAppId
  deriving DecidableEq, Repr

/-- `iothub.properties.eventHubEndpoints.events` of the object returned by
the toolkit. -/
structure EventsEndpoint where
  endpoint : String
  path : String
  deriving DecidableEq, Repr

/-- `iothub.properties.eventHubEndpoints`. -/
structure EventHubEndpoints where
  events : EventsEndpoint
  deriving DecidableEq, Repr

/-- `iothub.properties`. -/
structure IoTHubProperties where
  eventHubEndpoints : EventHubEndpoints
  deriving DecidableEq, Repr

/-- The iothub object returned by the toolkit calls `selectIoTHub` /
`createIoTHub`. -/
structure IoTHubResult where
  iotHubConnectionString : String
  properties : IoTHubProperties
  deriving DecidableEq, Repr

/-- The `detail` field of the two quick-pick items offered by
`IoTHub.provision`. -/
inductive ProvisionChoice
  | select
  | create
  deriving DecidableEq, Repr

/-- Environment of `IoTHub.provision`: the result of each external call it
may make.  A `none` toolkit result models the call resolving to a falsy
value. -/
structure IoTHubEnv where
  selection : Option ProvisionChoice
  toolkitInstalled : Bool
  selectResult : Option IoTHubResult
  createResult : Option IoTHubResult

/-- External steps taken by `IoTHub.provision`, in order. -/
inductive IoTHubEvent
  | showQuickPick
  | callSelectIoTHub
  | callCreateIoTHub
  | parseConnectionString
  | updateConfig (key : ConfigKey) (value : String)
  deriving DecidableEq, Repr

/-- Result of a run of `IoTHub.provision`: the returned value or thrown
error message, the `ConfigHandler.update` calls performed (key and value,
in order), and the trace of external steps. -/
structure IoTHubOutcome where
  result : Except String Bool
  updates : List (ConfigKey × String)
  trace : List IoTHubEvent
  deriving Repr

/-- The iothub object the run works on, as selected by the quick pick. -/
def pickedHub (env : IoTHubEnv) : Option IoTHubResult :=
  match env.selection with
  | none => none
  | some ProvisionChoice.select => env.selectResult
  | some ProvisionChoice.create => env.createResult

/-- Shallow embedding of `IoTHub.provision` (part_000, lines 37-122):
show the select/create quick pick; on dismissal return `false`; require
the toolkit extension; call `selectIoTHub` or `createIoTHub`; if an iothub
with a truthy connection string came back, extract the shared access key
with `/SharedAccessKey=([^;]*)/` (throwing when the regex does not match),
derive the Event Hub compatible connection string and path, persist the
three config values and return `true`; a falsy iothub yields `false`; an
iothub with a falsy connection string throws. -/
def IoTHub.provision (env : IoTHubEnv) : IoTHubOutcome :=
  match env.selection with
  | none => ⟨Except.ok false, [], [IoTHubEvent.showQuickPick]⟩
  | some choice =>
    if env.toolkitInstalled = false then
      ⟨Except.error "Azure IoT Toolkit is not installed. Please install it from Marketplace.",
        [], [IoTHubEvent.showQuickPick]⟩
    else
      let iothub := match choice with
        | ProvisionChoice.select => env.selectResult
        | ProvisionChoice.create => env.createResult
      let callEvent := match choice with
        | ProvisionChoice.select => IoTHubEvent.callSelectIoTHub
        | ProvisionChoice.create => IoTHubEvent.callCreateIoTHub
      let t1 := [IoTHubEvent.showQuickPick, callEvent]
      match iothub with
      | none => ⟨Except.ok false, [], t1⟩
      | some hub =>
        if hub.iotHubConnectionString = "" then
          ⟨Except.error "IoT Hub provision failed. Please check output window for detail.",
            [], t1⟩
        else
          let t2 := t1 ++ [IoTHubEvent.parseConnectionString]
          match matchSharedAccessKey hub.iotHubConnectionString with
          | none =>
            ⟨Except.error "Cannot parse shared access key from IoT Hub connection string. Please retry Azure Provision.",
              [], t2⟩
          | some sharedAccessKey =>
            let eventHubConnectionString :=
              "Endpoint=" ++ hub.properties.eventHubEndpoints.events.endpoint ++
                ";SharedAccessKeyName=iothubowner;SharedAccessKey=" ++ sharedAccessKey
            let eventHubConnectionPath := hub.properties.eventHubEndpoints.events.path
            let ups :=
              [(ConfigKey.iotHubConnectionString, hub.iotHubConnectionString),
               (ConfigKey.eventHubConnectionString, eventHubConnectionString),
               (ConfigKey.eventHubConnectionPath, eventHubConnectionPath)]
            ⟨Except.ok true, ups,
              t2 ++ ups.map (fun u => IoTHubEvent.updateConfig u.1 u.2)⟩

/-- An element of `azureAccountExtension.filters`: subscription display
name and id, and the credentials object of its session (opaque here). -/
structure AzureResourceFilter where
  displayName : String
  subscriptionId : String
  credentials : Nat
  deriving DecidableEq, Repr

/-- A VS Code quick-pick item as built by `getSubscriptionList`. -/
structure QuickPickItem where
  label : String
  description : String
  detail : Option String
  deriving DecidableEq, Repr

/-- Shallow embedding of `AzureFunctions.getSubscriptionList`
(AzureFunctions.ts, lines 31-55).  The argument is
`this.azureAccountExtension` (`none` when the extension is missing, in
which case the method throws); otherwise its `filters` list. -/
def AzureFunctions.getSubscriptionList
    (azureAccountExtension : Option (List AzureResourceFilter)) :
    Except String (List QuickPickItem) :=
  match azureAccountExtension with
  | none => Except.error "Azure account extension is not found."
  | some filters =>
    let subscriptionList := filters.map (fun item =>
      { label := item.displayName
        description := item.subscriptionId
        detail := none : QuickPickItem })
    if subscriptionList.length = 0 then
      Except.ok
        [{ label := "No subscription found"
           description := ""
           detail := some "Click Azure account at bottom left corner and choose Select All" }]
    else
      Except.ok subscriptionList

/-- Shallow embedding of `AzureFunctions.getCredentialFromSubscriptionId`
(AzureFunctions.ts, lines 57-78): throws when the account extension is
missing or the id is falsy, otherwise returns the credentials of the first
filter whose subscription id matches, or `none`. -/
def AzureFunctions.getCredentialFromSubscriptionId
    (azureAccountExtension : Option (List AzureResourceFilter))
    (subscriptionId : String) : Except String (Option Nat) :=
  match azureAccountExtension with
  | none => Except.error "Azure account extension is not found."
  | some subscriptions =>
    if subscriptionId = "" then
      Except.error "Subscription ID is required."
    else
      Except.ok
        ((subscriptions.find? (fun s => s.subscriptionId == subscriptionId)).map
          (fun s => s.credentials))

/-- Truthiness of a `string | undefined` value in the source:
`undefined` and the empty string are falsy. -/
def truthyStr : Option String → Bool
  | none => false
  | some s => s != ""

/-- The application settings dictionary (`StringDictionary.properties`),
possibly `undefined`, as a string-keyed partial map. -/
def AppProperties : Type := String → Option String

/-- Environment of the `AzureFunctions` operations: the result of each
external call.  `E` is the type of errors raised by external calls
(VS Code commands and ARM client calls); `Except.error e` models the call
rejecting with error `e`. -/
structure AzureFunctionsEnv (E : Type) where
  azureFunctionsPathExists : Bool
  createNewProject : Except E Unit
  azureAccountExtension : Option (List AzureResourceFilter)
  subscriptionPick : Option QuickPickItem
  createFunctionApp : Except E (Option String)
  configGet : ConfigKey → Option String
  listApplicationSettings : Except E (Option AppProperties)
  updateApplicationSettings : Except E Unit
  deployCommand : Except E Unit

/-- Errors escaping an `AzureFunctions` operation: either an `Error`
thrown by this code (a message) or an error propagated unchanged from an
external call. -/
inductive FnErr (E : Type)
  | thrown (msg : String)
  | external (e : E)
  deriving DecidableEq, Repr

/-- External steps taken by an `AzureFunctions` operation, in order. -/
inductive AFEvent
  | callCreateNewProject
  | showQuickPick
  | callCreateFunctionApp
  | updateConfig (key : ConfigKey) (value : String)
  | callListAppSettings
  | callUpdateAppSettings
  | callDeployCommand
  deriving DecidableEq, Repr

/-- Result of a run of an `AzureFunctions` operation: returned value or
error, the `ConfigHandler.update` calls performed, the application
settings passed to `updateApplicationSettings` (when that call was made),
and the trace of external steps. -/
structure AFOutcome (E : Type) where
  result : Except (FnErr E) Bool
  updates : List (ConfigKey × String)
  written : Option AppProperties
  trace : List AFEvent

/-- Shallow embedding of `AzureFunctions.create` (AzureFunctions.ts,
lines 96-117): throw when the functions folder is missing, otherwise run
the `azureFunctions.createNewProject` command and return `true`;
a failure of the command is rethrown unchanged. -/
def AzureFunctions.create {E : Type} (env : AzureFunctionsEnv E) :
    AFOutcome E :=
  if env.azureFunctionsPathExists = false then
    ⟨Except.error (FnErr.thrown "Azure Functions folder does not exist."), [], none, []⟩
  else
    match env.createNewProject with
    | Except.error e =>
      ⟨Except.error (FnErr.external e), [], none, [AFEvent.callCreateNewProject]⟩
    | Except.ok _ => ⟨Except.ok true, [], none, [AFEvent.callCreateNewProject]⟩

/-- The application settings dictionary written back by
`AzureFunctions.provision`: the dictionary read from the function app
(`{}` when its `properties` field was undefined) with the three connection
keys set from the config store, falsy config values becoming `""`. -/
def injectedSettings {E : Type} (env : AzureFunctionsEnv E)
    (props : Option AppProperties) : AppProperties :=
  fun k =>
    if k = "iotHubConnectionString" then
      some ((env.configGet ConfigKey.iotHubConnectionString).getD "")
    else if k = "eventHubConnectionPath" then
      some ((env.configGet ConfigKey.eventHubConnectionPath).getD "")
    else if k = "eventHubConnectionString" then
      some ((env.configGet ConfigKey.eventHubConnectionString).getD "")
    else
      (props.getD (fun _ => none)) k

/-- Shallow embedding of `AzureFunctions.provision` (AzureFunctions.ts,
lines 119-190): pick a subscription from `getSubscriptionList` (returning
`false` on dismissal or on an item with a falsy description); run
`azureFunctions.createFunctionApp`; a falsy id throws, otherwise the id is
persisted to config at once; the event hub config values are then
required, the credential is looked up, the resource group and site name
are parsed out of the id with `/\/resourceGroups\/([^\/]*)/` and
`/\/sites\/([^\/]*)/`; the app settings are read, the three connection
keys injected, the settings written back, and `true` returned.  Errors of
external calls are rethrown unchanged by the surrounding
`try { ... } catch (error) { throw error; }`. -/
def AzureFunctions.provision {E : Type} (env : AzureFunctionsEnv E) :
    AFOutcome E :=
  match AzureFunctions.getSubscriptionList env.azureAccountExtension with
  | Except.error msg => ⟨Except.error (FnErr.thrown msg), [], none, []⟩
  | Except.ok _ =>
    let t0 := [AFEvent.showQuickPick]
    match env.subscriptionPick with
    | none => ⟨Except.ok false, [], none, t0⟩
    | some subscription =>
      if subscription.description = "" then
        ⟨Except.ok false, [], none, t0⟩
      else
        let subscriptionId := subscription.description
        let t1 := t0 ++ [AFEvent.callCreateFunctionApp]
        match env.createFunctionApp with
        | Except.error e => ⟨Except.error (FnErr.external e), [], none, t1⟩
        | Except.ok none =>
          ⟨Except.error (FnErr.thrown "Unable to create Azure Functions application. Please check the error and retry."),
            [], none, t1⟩
        | Except.ok (some functionAppId) =>
          if functionAppId = "" then
            ⟨Except.error (FnErr.thrown "Unable to create Azure Functions application. Please check the error and retry."),
              [], none, t1⟩
          else
            let ups := [(ConfigKey.functionAppId, functionAppId)]
            let t2 := t1 ++ [AFEvent.updateConfig ConfigKey.functionAppId functionAppId]
            if truthyStr (env.configGet ConfigKey.eventHubConnectionString) = false ∨
                truthyStr (env.configGet ConfigKey.eventHubConnectionPath) = false then
              ⟨Except.error (FnErr.thrown "No event hub path or connection string found."),
                ups, none, t2⟩
            else
              match AzureFunctions.getCredentialFromSubscriptionId
                  env.azureAccountExtension subscriptionId with
              | Except.error msg => ⟨Except.error (FnErr.thrown msg), ups, none, t2⟩
              | Except.ok none =>
                ⟨Except.error (FnErr.thrown ("Unable to get credential for the subscription, id:" ++ subscriptionId ++ ".")),
                  ups, none, t2⟩
              | Except.ok (some _credential) =>
                match matchCaptureStr "/resourceGroups/" '/' functionAppId with
                | none =>
                  ⟨Except.error (FnErr.thrown "Cannot parse resource group from function app ID."),
                    ups, none, t2⟩
                | some _resourceGroup =>
                  match matchCaptureStr "/sites/" '/' functionAppId with
                  | none =>
                    ⟨Except.error (FnErr.thrown "Cannot parse function app name from function app ID."),
                      ups, none, t2⟩
                  | some _siteName =>
                    let t3 := t2 ++ [AFEvent.callListAppSettings]
                    match env.listApplicationSettings with
                    | Except.error e => ⟨Except.error (FnErr.external e), ups, none, t3⟩
                    | Except.ok props =>
                      let newProps := injectedSettings env props
                      let t4 := t3 ++ [AFEvent.callUpdateAppSettings]
                      match env.updateApplicationSettings with
                      | Except.error e =>
                        ⟨Except.error (FnErr.external e), ups, some newProps, t4⟩
                      | Except.ok _ => ⟨Except.ok true, ups, some newProps, t4⟩

/-- Shallow embedding of `AzureFunctions.deploy` (AzureFunctions.ts,
lines 192-219): read the function app id from config and run the
`azureFunctions.deploy` command, returning `true`; a failure of the
command is rethrown unchanged. -/
def AzureFunctions.deploy {E : Type} (env : AzureFunctionsEnv E) :
    AFOutcome E :=
  match env.deployCommand with
  | Except.error e =>
    ⟨Except.error (FnErr.external e), [], none, [AFEvent.callDeployCommand]⟩
  | Except.ok _ => ⟨Except.ok true, [], none, [AFEvent.callDeployCommand]⟩

/-- Actions performed by `AzureOperator` on the `IoTProject` model
(IoTProject itself lives outside the provisioning sources). -/
inductive OperatorAction
  | logError (msg : String)
  | loadProject (rootPath : String)
  | provisionProject
  | deployProject
  deriving DecidableEq, Repr

/-- Shallow embedding of `AzureOperator.Provision` (AzureOperator.ts,
lines 11-22): when the workspace has no root path, log a fatal error via
`ExceptionHelper.logError` (outside these sources; its fatal flag is taken
to abort the run); otherwise construct an `IoTProject`, load it from the
workspace root path and call its `provision()`. -/
def AzureOperator.Provision (rootPath : Option String) : List OperatorAction :=
  match rootPath with
  | none =>
    [OperatorAction.logError "Unable to find the root path, please open an IoT Studio project"]
  | some p => [OperatorAction.loadProject p, OperatorAction.provisionProject]

/-- Shallow embedding of `AzureOperator.Deploy` (AzureOperator.ts,
line 24): the method body is empty, so no action is performed. -/
def AzureOperator.Deploy : List OperatorAction := []

/-- A concrete iothub object used to exercise the theorems. -/
def sampleHub : IoTHubResult :=
  { iotHubConnectionString :=
      "HostName=h;SharedAccessKeyName=iothubowner;SharedAccessKey=abc123"
    properties := { eventHubEndpoints := { events :=
      { endpoint := "sb://sample/", path := "samplepath" } } } }

/-- A concrete environment in which `IoTHub.provision` succeeds. -/
def sampleIoTHubEnv : IoTHubEnv :=
  { selection := some ProvisionChoice.select
    toolkitInstalled := true
    selectResult := some sampleHub
    createResult := none }

/-- Position of an `IoTHubEvent` in the fixed step order of
`IoTHub.provision`: quick pick, toolkit call, parse, config updates. -/
def stepIndex : IoTHubEvent → Nat
  | IoTHubEvent.showQuickPick => 0
  | IoTHubEvent.callSelectIoTHub => 1
  | IoTHubEvent.callCreateIoTHub => 1
  | IoTHubEvent.parseConnectionString => 2
  | IoTHubEvent.updateConfig _ _ => 3

/-- A concrete subscription filter list used to exercise the theorems. -/
def sampleFilters : List AzureResourceFilter :=
  [{ displayName := "Sub", subscriptionId := "sub-id", credentials := 0 }]

/-- The quick-pick item corresponding to `sampleFilters`. -/
def samplePick : QuickPickItem :=
  { label := "Sub", description := "sub-id", detail := none }

/-- A concrete function app id with resource group and site segments. -/
def sampleAppId : String :=
  "/subscriptions/x/resourceGroups/rg1/providers/Microsoft.Web/sites/site1"

/-- A concrete environment in which `AzureFunctions.provision` succeeds. -/
def sampleAFEnvSuccess : AzureFunctionsEnv String :=
  { azureFunctionsPathExists := true
    createNewProject := Except.ok ()
    azureAccountExtension := some sampleFilters
    subscriptionPick := some samplePick
    createFunctionApp := Except.ok (some sampleAppId)
    configGet := fun k =>
      match k with
      | ConfigKey.eventHubConnectionString => some "Endpoint=sb://sample/;SharedAccessKeyName=iothubowner;SharedAccessKey=abc123"
      | ConfigKey.eventHubConnectionPath => some "samplepath"
      | ConfigKey.iotHubConnectionString => some "HostName=h;SharedAccessKey=abc123"
      | ConfigKey.functionAppId => none
    listApplicationSettings := Except.ok none
    updateApplicationSettings := Except.ok ()
    deployCommand := Except.ok () }

/-- A concrete environment in which `createFunctionApp` fails. -/
def sampleAFEnvCfaError : AzureFunctionsEnv String :=
  { azureFunctionsPathExists := true
    createNewProject := Except.ok ()
    azureAccountExtension := some sampleFilters
    subscriptionPick := some samplePick
    createFunctionApp := Except.error "boom"
    configGet := fun _ => none
    listApplicationSettings := Except.ok none
    updateApplicationSettings := Except.ok ()
    deployCommand := Except.ok () }

/-- A concrete IoTHub environment in which the quick pick is dismissed. -/
def sampleIoTHubEnvDismiss : IoTHubEnv :=
  { selection := none, toolkitInstalled := true
    selectResult := none, createResult := none }

/-- A concrete AzureFunctions environment in which the subscription pick
is dismissed. -/
def sampleAFEnvDismiss : AzureFunctionsEnv String :=
  { azureFunctionsPathExists := true
    createNewProject := Except.ok ()
    azureAccountExtension := some sampleFilters
    subscriptionPick := none
    createFunctionApp := Except.ok none
    configGet := fun _ => none
    listApplicationSettings := Except.ok none
    updateApplicationSettings := Except.ok ()
    deployCommand := Except.ok () }

/-- A concrete environment in which `provision` persists the function app
id and then throws because the event hub config values are missing. -/
def sampleAFEnvGuardFail : AzureFunctionsEnv String :=
  { azureFunctionsPathExists := true
    createNewProject := Except.ok ()
    azureAccountExtension := some sampleFilters
    subscriptionPick := some samplePick
    createFunctionApp := Except.ok (some sampleAppId)
    configGet := fun _ => none
    listApplicationSettings := Except.ok none
    updateApplicationSettings := Except.ok ()
    deployCommand := Except.ok () }

/-! ### Lemmas and claim theorems -/

theorem isPrefixOf_iff_exists {p l : List Char} :
    p.isPrefixOf l = true ↔ ∃ t, l = p ++ t := by
  induction p generalizing l with
  | nil => simp [List.isPrefixOf]
  | cons a as ih =>
    cases l with
    | nil => simp [List.isPrefixOf]
    | cons b bs =>
      simp only [List.isPrefixOf, Bool.and_eq_true, beq_iff_eq, ih, List.cons_append,
        List.cons.injEq]
      constructor
      · rintro ⟨hab, t, ht⟩; exact ⟨t, hab.symm, ht⟩
      · rintro ⟨t, hab, ht⟩; exact ⟨hab.symm, t, ht⟩

theorem takeWhile_stop {stop : Char} {key post : List Char}
    (hk : ∀ c ∈ key, c ≠ stop)
    (hp : post = [] ∨ ∃ p', post = stop :: p') :
    (key ++ post).takeWhile (fun x => x != stop) = key := by
  induction key with
  | nil =>
    rcases hp with h | ⟨p', h⟩
    · simp [h]
    · simp [h, List.takeWhile]
  | cons a as ih =>
    have ha : a ≠ stop := hk a (by simp)
    have : (fun x => x != stop) a = true := by simpa using ha
    simp only [List.cons_append, List.takeWhile_cons, this, if_true]
    rw [ih (fun c hc => hk c (by simp [hc]))]

theorem mem_takeWhile_ne {stop : Char} {l r : List Char}
    (h : l.takeWhile (fun x => x != stop) = r) : ∀ c ∈ r, c ≠ stop := by
  subst h
  intro c hc
  have := List.mem_takeWhile_imp hc
  simpa using this

theorem dropWhile_head_stop {stop : Char} (l : List Char) :
    l.dropWhile (fun x => x != stop) = [] ∨
      ∃ p', l.dropWhile (fun x => x != stop) = stop :: p' := by
  induction l with
  | nil => left; rfl
  | cons a as ih =>
    by_cases ha : a = stop
    · right; exact ⟨as, by simp [List.dropWhile, ha]⟩
    · have : (fun x => x != stop) a = true := by simpa using ha
      simpa [List.dropWhile_cons, this] using ih

/-- Soundness of `matchCapture`: a successful capture decomposes the input
as `pre ++ pat ++ r ++ post` where `r` avoids `stop`, is maximal, and the
occurrence of `pat` is the first one. -/
theorem matchCapture_sound {pat : List Char} {stop : Char} {l r : List Char}
    (h : matchCapture pat stop l = some r) :
    ∃ pre post, l = pre ++ pat ++ r ++ post ∧ (∀ c ∈ r, c ≠ stop) ∧
      (post = [] ∨ ∃ p', post = stop :: p') ∧
      (∀ i < pre.length, pat.isPrefixOf (l.drop i) = false) := by
  induction l with
  | nil => simp [matchCapture] at h
  | cons c cs ih =>
    by_cases hp : pat.isPrefixOf (c :: cs) = true
    · rw [matchCapture, if_pos hp] at h
      obtain ⟨t, ht⟩ := isPrefixOf_iff_exists.mp hp
      refine ⟨[], t.dropWhile (fun x => x != stop), ?_, ?_, ?_, ?_⟩
      · have hdrop : (c :: cs).drop pat.length = t := by
          rw [ht, List.drop_left]
        rw [hdrop] at h
        have hr : t.takeWhile (fun x => x != stop) = r := by
          injection h
        calc c :: cs = pat ++ t := ht
          _ = pat ++ (t.takeWhile (fun x => x != stop) ++
                t.dropWhile (fun x => x != stop)) := by
                rw [List.takeWhile_append_dropWhile]
          _ = [] ++ pat ++ r ++ t.dropWhile (fun x => x != stop) := by
                rw [hr]; simp [List.append_assoc]
      · have hdrop : (c :: cs).drop pat.length = t := by
          rw [ht, List.drop_left]
        rw [hdrop] at h
        have hr : t.takeWhile (fun x => x != stop) = r := by injection h
        exact mem_takeWhile_ne hr
      · exact dropWhile_head_stop t
      · intro i hi; simp at hi
    · rw [matchCapture, if_neg hp] at h
      obtain ⟨pre, post, hl, hr, hpost, hfirst⟩ := ih h
      refine ⟨c :: pre, post, by simp [hl], hr, hpost, ?_⟩
      intro i hi
      cases i with
      | zero => simpa using Bool.eq_false_iff.mpr hp
      | succ j =>
        have hj : j < pre.length := by simpa using hi
        simpa using hfirst j hj

/-- Completeness of `matchCapture`: if the input decomposes with a first
occurrence of `pat` followed by a maximal `stop`-free run `key`, the
capture returns exactly `key`. -/
theorem matchCapture_complete {pat : List Char} {stop : Char}
    {pre key post l : List Char}
    (hne : pat ≠ [])
    (hl : l = pre ++ pat ++ key ++ post)
    (hk : ∀ c ∈ key, c ≠ stop)
    (hp : post = [] ∨ ∃ p', post = stop :: p')
    (hfirst : ∀ i < pre.length, pat.isPrefixOf (l.drop i) = false) :
    matchCapture pat stop l = some key := by
  induction pre generalizing l with
  | nil =>
    simp only [List.nil_append] at hl
    obtain ⟨a, as⟩ : ∃ a as, pat = a :: as := by
      cases pat with
      | nil => exact absurd rfl hne
      | cons a as => exact ⟨a, as, rfl⟩
    obtain ⟨as, hpat⟩ := as
    have hlform : l = a :: (as ++ (key ++ post)) := by
      rw [hl, hpat]; simp [List.append_assoc]
    have hpre : pat.isPrefixOf l = true := by
      rw [hl]
      exact isPrefixOf_iff_exists.mpr ⟨key ++ post, by simp [List.append_assoc]⟩
    rw [hlform, matchCapture]
    rw [hlform] at hpre
    rw [if_pos hpre]
    have hdrop : (a :: (as ++ (key ++ post))).drop pat.length = key ++ post := by
      have : a :: (as ++ (key ++ post)) = pat ++ (key ++ post) := by
        rw [hpat]; simp
      rw [this, List.drop_left]
    rw [hdrop, takeWhile_stop hk hp]
  | cons p pre' ih =>
    have hlform : l = p :: (pre' ++ pat ++ key ++ post) := by
      rw [hl]; simp [List.append_assoc]
    have h0 : pat.isPrefixOf l = false := by
      have := hfirst 0 (by simp)
      simpa using this
    rw [hlform, matchCapture]
    rw [hlform] at h0
    rw [if_neg (by rw [h0]; exact Bool.false_ne_true)]
    exact ih rfl (fun i hi => by
      have := hfirst (i + 1) (by simpa using Nat.succ_lt_succ hi)
      rw [hlform] at this
      simpa using this)

/-- If `pat` never occurs in `l`, the capture fails. -/
theorem matchCapture_none {pat : List Char} {stop : Char} {l : List Char}
    (h : ∀ i, pat.isPrefixOf (l.drop i) = false) :
    matchCapture pat stop l = none := by
  cases hm : matchCapture pat stop l with
  | none => rfl
  | some r =>
    obtain ⟨pre, post, hl, -, -, -⟩ := matchCapture_sound hm
    have : pat.isPrefixOf (l.drop pre.length) = true := by
      rw [hl]
      have : (pre ++ pat ++ r ++ post).drop pre.length = pat ++ r ++ post := by
        have : pre ++ pat ++ r ++ post = pre ++ (pat ++ r ++ post) := by
          simp [List.append_assoc]
        rw [this, List.drop_left]
      rw [this]
      exact isPrefixOf_iff_exists.mpr ⟨r ++ post, by simp [List.append_assoc]⟩
    rw [h pre.length] at this
    exact absurd this (by simp)

theorem iothub_provision_parsed (env : IoTHubEnv) (hub : IoTHubResult) (k : String)
    (htk : env.toolkitInstalled = true)
    (hhub : pickedHub env = some hub)
    (hcs : hub.iotHubConnectionString ≠ "")
    (hm : matchSharedAccessKey hub.iotHubConnectionString = some k) :
    (IoTHub.provision env).result = Except.ok true ∧
    (IoTHub.provision env).updates =
      [(ConfigKey.iotHubConnectionString, hub.iotHubConnectionString),
       (ConfigKey.eventHubConnectionString,
         "Endpoint=" ++ hub.properties.eventHubEndpoints.events.endpoint ++
           ";SharedAccessKeyName=iothubowner;SharedAccessKey=" ++ k),
       (ConfigKey.eventHubConnectionPath, hub.properties.eventHubEndpoints.events.path)] := by
  obtain ⟨sel, tk, sres, cres⟩ := env
  simp only at htk
  subst htk
  cases sel with
  | none => simp [pickedHub] at hhub
  | some choice =>
    cases choice with
    | select =>
      simp only [pickedHub] at hhub
      simp [IoTHub.provision, hhub, hcs, hm]
    | create =>
      simp only [pickedHub] at hhub
      simp [IoTHub.provision, hhub, hcs, hm]

theorem iothub_provision_noparse (env : IoTHubEnv) (hub : IoTHubResult)
    (htk : env.toolkitInstalled = true)
    (hhub : pickedHub env = some hub)
    (hcs : hub.iotHubConnectionString ≠ "")
    (hm : matchSharedAccessKey hub.iotHubConnectionString = none) :
    (IoTHub.provision env).result =
      Except.error "Cannot parse shared access key from IoT Hub connection string. Please retry Azure Provision." := by
  obtain ⟨sel, tk, sres, cres⟩ := env
  simp only at htk
  subst htk
  cases sel with
  | none => simp [pickedHub] at hhub
  | some choice =>
    cases choice with
    | select =>
      simp only [pickedHub] at hhub
      simp [IoTHub.provision, hhub, hcs, hm]
    | create =>
      simp only [pickedHub] at hhub
      simp [IoTHub.provision, hhub, hcs, hm]

/-- C1: for every IoT Hub connection string returned by the toolkit call
selected by the quick pick, if it contains a segment `SharedAccessKey=key`
(with `key` the maximal run of characters other than a semicolon, at the
first occurrence of the literal), `IoTHub.provision` extracts exactly that
key, succeeds, and derives the event hub connection string from it; if no
such segment occurs, `provision` throws the parse error instead. -/
theorem C1_sharedAccessKey_extraction (env : IoTHubEnv) (hub : IoTHubResult)
    (htk : env.toolkitInstalled = true)
    (hhub : pickedHub env = some hub)
    (hcs : hub.iotHubConnectionString ≠ "") :
    (∀ pre key post,
      hub.iotHubConnectionString.data =
          pre ++ ("SharedAccessKey=").data ++ key ++ post →
      (∀ c ∈ key, c ≠ ';') →
      (post = [] ∨ ∃ p', post = ';' :: p') →
      (∀ i < pre.length,
        ("SharedAccessKey=").data.isPrefixOf
          (hub.iotHubConnectionString.data.drop i) = false) →
      matchSharedAccessKey hub.iotHubConnectionString = some (String.mk key) ∧
      (IoTHub.provision env).result = Except.ok true ∧
      (ConfigKey.eventHubConnectionString,
        "Endpoint=" ++ hub.properties.eventHubEndpoints.events.endpoint ++
          ";SharedAccessKeyName=iothubowner;SharedAccessKey=" ++ String.mk key) ∈
        (IoTHub.provision env).updates) ∧
    ((∀ i, ("SharedAccessKey=").data.isPrefixOf
        (hub.iotHubConnectionString.data.drop i) = false) →
      (IoTHub.provision env).result =
        Except.error "Cannot parse shared access key from IoT Hub connection string. Please retry Azure Provision.") := by
  constructor
  · intro pre key post hdecomp hkey hpost hfirst
    have hmc : matchCapture ("SharedAccessKey=").data ';'
        hub.iotHubConnectionString.data = some key :=
      matchCapture_complete (by decide) hdecomp hkey hpost hfirst
    have hm : matchSharedAccessKey hub.iotHubConnectionString = some (String.mk key) := by
      simp [matchSharedAccessKey, matchCaptureStr, hmc]
    obtain ⟨hres, hups⟩ := iothub_provision_parsed env hub (String.mk key) htk hhub hcs hm
    refine ⟨hm, hres, ?_⟩
    rw [hups]
    simp
  · intro hnone
    have hmc : matchCapture ("SharedAccessKey=").data ';'
        hub.iotHubConnectionString.data = none := matchCapture_none hnone
    have hm : matchSharedAccessKey hub.iotHubConnectionString = none := by
      simp [matchSharedAccessKey, matchCaptureStr, hmc]
    exact iothub_provision_noparse env hub htk hhub hcs hm

/-- C2: for every iothub object with a truthy connection string whose
shared access key parses as `k`, the persisted Event Hub compatible
connection string is exactly
`Endpoint=<events.endpoint>;SharedAccessKeyName=iothubowner;SharedAccessKey=<k>`
and the persisted event hub path is exactly `events.path`. -/
theorem C2_eventHub_derivation (env : IoTHubEnv) (hub : IoTHubResult) (k : String)
    (htk : env.toolkitInstalled = true)
    (hhub : pickedHub env = some hub)
    (hcs : hub.iotHubConnectionString ≠ "")
    (hm : matchSharedAccessKey hub.iotHubConnectionString = some k) :
    (ConfigKey.eventHubConnectionString,
      "Endpoint=" ++ hub.properties.eventHubEndpoints.events.endpoint ++
        ";SharedAccessKeyName=iothubowner;SharedAccessKey=" ++ k) ∈
      (IoTHub.provision env).updates ∧
    (ConfigKey.eventHubConnectionPath,
      hub.properties.eventHubEndpoints.events.path) ∈
      (IoTHub.provision env).updates := by
  obtain ⟨-, hups⟩ := iothub_provision_parsed env hub k htk hhub hcs hm
  rw [hups]
  constructor <;> simp

/-- C3: on every successful run of `IoTHub.provision` exactly three
config values are persisted, in order: the hub connection string, the
derived event hub connection string and the events path; no other config
key is written. -/
theorem C3_three_updates (env : IoTHubEnv)
    (h : (IoTHub.provision env).result = Except.ok true) :
    ∃ hub k, pickedHub env = some hub ∧ env.toolkitInstalled = true ∧
      matchSharedAccessKey hub.iotHubConnectionString = some k ∧
      (IoTHub.provision env).updates =
        [(ConfigKey.iotHubConnectionString, hub.iotHubConnectionString),
         (ConfigKey.eventHubConnectionString,
           "Endpoint=" ++ hub.properties.eventHubEndpoints.events.endpoint ++
             ";SharedAccessKeyName=iothubowner;SharedAccessKey=" ++ k),
         (ConfigKey.eventHubConnectionPath,
           hub.properties.eventHubEndpoints.events.path)] := by
  obtain ⟨sel, tk, sres, cres⟩ := env
  cases sel with
  | none => simp [IoTHub.provision] at h
  | some choice =>
    cases tk with
    | false => simp [IoTHub.provision] at h
    | true =>
      cases choice with
      | select =>
        cases sres with
        | none => simp [IoTHub.provision] at h
        | some hub =>
          by_cases hcs : hub.iotHubConnectionString = ""
          · simp [IoTHub.provision, hcs] at h
          · cases hm : matchSharedAccessKey hub.iotHubConnectionString with
            | none => simp [IoTHub.provision, hcs, hm] at h
            | some k =>
              refine ⟨hub, k, by simp [pickedHub], rfl, hm, ?_⟩
              simp [IoTHub.provision, hcs, hm]
      | create =>
        cases cres with
        | none => simp [IoTHub.provision] at h
        | some hub =>
          by_cases hcs : hub.iotHubConnectionString = ""
          · simp [IoTHub.provision, hcs] at h
          · cases hm : matchSharedAccessKey hub.iotHubConnectionString with
            | none => simp [IoTHub.provision, hcs, hm] at h
            | some k =>
              refine ⟨hub, k, by simp [pickedHub], rfl, hm, ?_⟩
              simp [IoTHub.provision, hcs, hm]

/-- Witness for C1 at a concrete connection string. -/
theorem C1_witness :
    matchSharedAccessKey sampleHub.iotHubConnectionString = some "abc123" ∧
    (IoTHub.provision sampleIoTHubEnv).result = Except.ok true ∧
    (ConfigKey.eventHubConnectionString,
      "Endpoint=" ++ sampleHub.properties.eventHubEndpoints.events.endpoint ++
        ";SharedAccessKeyName=iothubowner;SharedAccessKey=" ++
          String.mk ("abc123").data) ∈
      (IoTHub.provision sampleIoTHubEnv).updates := by
  exact (C1_sharedAccessKey_extraction sampleIoTHubEnv sampleHub rfl rfl (by decide)).1
    ("HostName=h;SharedAccessKeyName=iothubowner;").data ("abc123").data []
    (by decide) (by decide) (Or.inl rfl) (by decide)

/-- Witness for C2 at a concrete iothub object. -/
theorem C2_witness :
    (ConfigKey.eventHubConnectionString,
      "Endpoint=" ++ sampleHub.properties.eventHubEndpoints.events.endpoint ++
        ";SharedAccessKeyName=iothubowner;SharedAccessKey=" ++ "abc123") ∈
      (IoTHub.provision sampleIoTHubEnv).updates ∧
    (ConfigKey.eventHubConnectionPath,
      sampleHub.properties.eventHubEndpoints.events.path) ∈
      (IoTHub.provision sampleIoTHubEnv).updates :=
  C2_eventHub_derivation sampleIoTHubEnv sampleHub "abc123" rfl rfl (by decide) (by decide)

/-- Witness for C3 at a concrete successful environment. -/
theorem C3_witness :
    ∃ hub k, pickedHub sampleIoTHubEnv = some hub ∧
      sampleIoTHubEnv.toolkitInstalled = true ∧
      matchSharedAccessKey hub.iotHubConnectionString = some k ∧
      (IoTHub.provision sampleIoTHubEnv).updates =
        [(ConfigKey.iotHubConnectionString, hub.iotHubConnectionString),
         (ConfigKey.eventHubConnectionString,
           "Endpoint=" ++ hub.properties.eventHubEndpoints.events.endpoint ++
             ";SharedAccessKeyName=iothubowner;SharedAccessKey=" ++ k),
         (ConfigKey.eventHubConnectionPath,
           hub.properties.eventHubEndpoints.events.path)] :=
  C3_three_updates sampleIoTHubEnv rfl

/-- C7: `IoTHub.provision` performs its steps in the fixed sequential
order quick pick, toolkit call, regex parse, config persists: the trace
starts with the quick pick, step indices never decrease along it, a parse
only appears after a toolkit call and a config update only after the
parse. -/
theorem C7_sequential_order (env : IoTHubEnv) :
    (IoTHub.provision env).trace.head? = some IoTHubEvent.showQuickPick ∧
    (IoTHub.provision env).trace.Pairwise (fun a b => stepIndex a ≤ stepIndex b) ∧
    (IoTHubEvent.parseConnectionString ∈ (IoTHub.provision env).trace →
      IoTHubEvent.callSelectIoTHub ∈ (IoTHub.provision env).trace ∨
        IoTHubEvent.callCreateIoTHub ∈ (IoTHub.provision env).trace) ∧
    (∀ k v, IoTHubEvent.updateConfig k v ∈ (IoTHub.provision env).trace →
      IoTHubEvent.parseConnectionString ∈ (IoTHub.provision env).trace) := by
  obtain ⟨sel, tk, sres, cres⟩ := env
  cases sel with
  | none => simp [IoTHub.provision, stepIndex]
  | some choice =>
    cases tk with
    | false => simp [IoTHub.provision, stepIndex]
    | true =>
      cases choice with
      | select =>
        cases sres with
        | none => simp [IoTHub.provision, stepIndex]
        | some hub =>
          by_cases hcs : hub.iotHubConnectionString = ""
          · simp [IoTHub.provision, hcs, stepIndex]
          · cases hm : matchSharedAccessKey hub.iotHubConnectionString with
            | none => simp [IoTHub.provision, hcs, hm, stepIndex]
            | some k => simp [IoTHub.provision, hcs, hm, stepIndex]
      | create =>
        cases cres with
        | none => simp [IoTHub.provision, stepIndex]
        | some hub =>
          by_cases hcs : hub.iotHubConnectionString = ""
          · simp [IoTHub.provision, hcs, stepIndex]
          · cases hm : matchSharedAccessKey hub.iotHubConnectionString with
            | none => simp [IoTHub.provision, hcs, hm, stepIndex]
            | some k => simp [IoTHub.provision, hcs, hm, stepIndex]

/-- Witness for C7 at a concrete successful environment. -/
theorem C7_witness :
    IoTHubEvent.parseConnectionString ∈ (IoTHub.provision sampleIoTHubEnv).trace :=
  (C7_sequential_order sampleIoTHubEnv).2.2.2
    ConfigKey.iotHubConnectionString
    sampleHub.iotHubConnectionString (by decide)

/-- C5 counterexample: `AzureOperator.Deploy` has an empty body, so it
does not call the project's `deploy()`. -/
theorem C5_counterexample :
    AzureOperator.Deploy = [] ∧
    OperatorAction.deployProject ∉ AzureOperator.Deploy := by
  constructor
  · rfl
  · simp [AzureOperator.Deploy]

/-- C5 (amended): `AzureOperator.Provision` loads the project from the
workspace root path and calls its `provision()`; `AzureOperator.Deploy` is
an empty stub that performs no action. -/
theorem C5_amended_driver (p : String) :
    AzureOperator.Provision (some p) =
      [OperatorAction.loadProject p, OperatorAction.provisionProject] ∧
    AzureOperator.Deploy = [] := ⟨rfl, rfl⟩

theorem getSubscriptionList_some (fs : List AzureResourceFilter) :
    ∃ l, AzureFunctions.getSubscriptionList (some fs) = Except.ok l := by
  cases fs with
  | nil => exact ⟨_, rfl⟩
  | cons a as => simp [AzureFunctions.getSubscriptionList]

/-- C10: whenever the Azure account extension is present,
`getSubscriptionList` returns a non-empty list: one item per subscription
filter with label the display name and description the subscription id,
and, with zero filters, exactly one placeholder item labelled
`No subscription found` with empty description. -/
theorem C10_subscription_list (fs : List AzureResourceFilter) :
    ∃ l, AzureFunctions.getSubscriptionList (some fs) = Except.ok l ∧ l ≠ [] ∧
      (fs = [] →
        l = [{ label := "No subscription found", description := "",
               detail := some "Click Azure account at bottom left corner and choose Select All" }]) ∧
      (fs ≠ [] →
        l = fs.map (fun item =>
          { label := item.displayName, description := item.subscriptionId,
            detail := none })) := by
  cases fs with
  | nil =>
    refine ⟨_, rfl, by simp, fun _ => rfl, fun h => absurd rfl h⟩
  | cons a as =>
    refine ⟨_, by simp [AzureFunctions.getSubscriptionList], by simp, ?_, fun _ => rfl⟩
    intro h
    exact absurd h (by simp)

/-- Witness for C10 with an empty filter list. -/
theorem C10_witness :
    ∃ l, AzureFunctions.getSubscriptionList (some []) = Except.ok l ∧ l ≠ [] ∧
      l = [{ label := "No subscription found", description := "",
             detail := some "Click Azure account at bottom left corner and choose Select All" }] := by
  obtain ⟨l, h1, h2, h3, -⟩ := C10_subscription_list []
  exact ⟨l, h1, h2, h3 rfl⟩

/-- Exhaustive enumeration of the control-flow branches of
`AzureFunctions.provision`, with the outcome of each branch. -/
theorem provision_cases {E : Type} (env : AzureFunctionsEnv E) :
    (env.azureAccountExtension = none ∧
      AzureFunctions.provision env =
        ⟨Except.error (FnErr.thrown "Azure account extension is not found."),
          [], none, []⟩) ∨
    ((env.subscriptionPick = none ∨
        ∃ s, env.subscriptionPick = some s ∧ s.description = "") ∧
      (∃ fs, env.azureAccountExtension = some fs) ∧
      AzureFunctions.provision env =
        ⟨Except.ok false, [], none, [AFEvent.showQuickPick]⟩) ∨
    (∃ s e, env.subscriptionPick = some s ∧ s.description ≠ "" ∧
      env.createFunctionApp = Except.error e ∧
      AzureFunctions.provision env =
        ⟨Except.error (FnErr.external e), [], none,
          [AFEvent.showQuickPick, AFEvent.callCreateFunctionApp]⟩) ∨
    (∃ s, env.subscriptionPick = some s ∧ s.description ≠ "" ∧
      (env.createFunctionApp = Except.ok none ∨
        env.createFunctionApp = Except.ok (some "")) ∧
      AzureFunctions.provision env =
        ⟨Except.error (FnErr.thrown "Unable to create Azure Functions application. Please check the error and retry."),
          [], none, [AFEvent.showQuickPick, AFEvent.callCreateFunctionApp]⟩) ∨
    (∃ s fid msg, env.subscriptionPick = some s ∧ s.description ≠ "" ∧
      env.createFunctionApp = Except.ok (some fid) ∧ fid ≠ "" ∧
      AzureFunctions.provision env =
        ⟨Except.error (FnErr.thrown msg),
          [(ConfigKey.functionAppId, fid)], none,
          [AFEvent.showQuickPick, AFEvent.callCreateFunctionApp,
           AFEvent.updateConfig ConfigKey.functionAppId fid]⟩) ∨
    (∃ s fid e, env.subscriptionPick = some s ∧ s.description ≠ "" ∧
      env.createFunctionApp = Except.ok (some fid) ∧ fid ≠ "" ∧
      env.listApplicationSettings = Except.error e ∧
      AzureFunctions.provision env =
        ⟨Except.error (FnErr.external e),
          [(ConfigKey.functionAppId, fid)], none,
          [AFEvent.showQuickPick, AFEvent.callCreateFunctionApp,
           AFEvent.updateConfig ConfigKey.functionAppId fid,
           AFEvent.callListAppSettings]⟩) ∨
    (∃ s fid props e, env.subscriptionPick = some s ∧ s.description ≠ "" ∧
      env.createFunctionApp = Except.ok (some fid) ∧ fid ≠ "" ∧
      env.listApplicationSettings = Except.ok props ∧
      env.updateApplicationSettings = Except.error e ∧
      AzureFunctions.provision env =
        ⟨Except.error (FnErr.external e),
          [(ConfigKey.functionAppId, fid)], some (injectedSettings env props),
          [AFEvent.showQuickPick, AFEvent.callCreateFunctionApp,
           AFEvent.updateConfig ConfigKey.functionAppId fid,
           AFEvent.callListAppSettings, AFEvent.callUpdateAppSettings]⟩) ∨
    (∃ s fid props, env.subscriptionPick = some s ∧ s.description ≠ "" ∧
      env.createFunctionApp = Except.ok (some fid) ∧ fid ≠ "" ∧
      env.listApplicationSettings = Except.ok props ∧
      env.updateApplicationSettings = Except.ok () ∧
      AzureFunctions.provision env =
        ⟨Except.ok true,
          [(ConfigKey.functionAppId, fid)], some (injectedSettings env props),
          [AFEvent.showQuickPick, AFEvent.callCreateFunctionApp,
           AFEvent.updateConfig ConfigKey.functionAppId fid,
           AFEvent.callListAppSettings, AFEvent.callUpdateAppSettings]⟩) := by
  obtain ⟨pe, cnp, ext, pick, cfa, cfg, las, uas, dep⟩ := env
  cases ext with
  | none =>
    left
    exact ⟨rfl, by simp [AzureFunctions.provision, AzureFunctions.getSubscriptionList]⟩
  | some fs =>
    obtain ⟨l, hl⟩ := getSubscriptionList_some fs
    cases pick with
    | none =>
      right; left
      exact ⟨Or.inl rfl, ⟨fs, rfl⟩, by simp [AzureFunctions.provision, hl]⟩
    | some s =>
      by_cases hdesc : s.description = ""
      · right; left
        exact ⟨Or.inr ⟨s, rfl, hdesc⟩, ⟨fs, rfl⟩,
          by simp [AzureFunctions.provision, hl, hdesc]⟩
      · cases cfa with
        | error e =>
          right; right; left
          exact ⟨s, e, rfl, hdesc, rfl, by simp [AzureFunctions.provision, hl, hdesc]⟩
        | ok fid =>
          cases fid with
          | none =>
            right; right; right; left
            exact ⟨s, rfl, hdesc, Or.inl rfl,
              by simp [AzureFunctions.provision, hl, hdesc]⟩
          | some fid =>
            by_cases hfid : fid = ""
            · right; right; right; left
              subst hfid
              exact ⟨s, rfl, hdesc, Or.inr rfl,
                by simp [AzureFunctions.provision, hl, hdesc]⟩
            · by_cases hguard :
                truthyStr (cfg ConfigKey.eventHubConnectionString) = false ∨
                  truthyStr (cfg ConfigKey.eventHubConnectionPath) = false
              · right; right; right; right; left
                exact ⟨s, fid, "No event hub path or connection string found.",
                  rfl, hdesc, rfl, hfid,
                  by simp [AzureFunctions.provision, hl, hdesc, hfid, hguard]⟩
              · cases hcred : AzureFunctions.getCredentialFromSubscriptionId
                    (some fs) s.description with
                | error msg =>
                  right; right; right; right; left
                  exact ⟨s, fid, msg, rfl, hdesc, rfl, hfid,
                    by simp [AzureFunctions.provision, hl, hdesc, hfid, hguard, hcred]⟩
                | ok cred =>
                  cases cred with
                  | none =>
                    right; right; right; right; left
                    exact ⟨s, fid,
                      "Unable to get credential for the subscription, id:" ++
                        s.description ++ ".",
                      rfl, hdesc, rfl, hfid,
                      by simp [AzureFunctions.provision, hl, hdesc, hfid, hguard, hcred]⟩
                  | some c =>
                    cases hr1 : matchCaptureStr "/resourceGroups/" '/' fid with
                    | none =>
                      right; right; right; right; left
                      exact ⟨s, fid, "Cannot parse resource group from function app ID.",
                        rfl, hdesc, rfl, hfid,
                        by simp [AzureFunctions.provision, hl, hdesc, hfid, hguard,
                          hcred, hr1]⟩
                    | some rg =>
                      cases hr2 : matchCaptureStr "/sites/" '/' fid with
                      | none =>
                        right; right; right; right; left
                        exact ⟨s, fid, "Cannot parse function app name from function app ID.",
                          rfl, hdesc, rfl, hfid,
                          by simp [AzureFunctions.provision, hl, hdesc, hfid, hguard,
                            hcred, hr1, hr2]⟩
                      | some site =>
                        cases las with
                        | error e =>
                          right; right; right; right; right; left
                          exact ⟨s, fid, e, rfl, hdesc, rfl, hfid, rfl,
                            by simp [AzureFunctions.provision, hl, hdesc, hfid, hguard,
                              hcred, hr1, hr2]⟩
                        | ok props =>
                          cases uas with
                          | error e =>
                            right; right; right; right; right; right; left
                            exact ⟨s, fid, props, e, rfl, hdesc, rfl, hfid, rfl, rfl,
                              by simp [AzureFunctions.provision, hl, hdesc, hfid, hguard,
                                hcred, hr1, hr2]⟩
                          | ok u =>
                            right; right; right; right; right; right; right
                            exact ⟨s, fid, props, rfl, hdesc, rfl, hfid, rfl, rfl,
                              by simp [AzureFunctions.provision, hl, hdesc, hfid, hguard,
                                hcred, hr1, hr2]⟩

/-- C4: on every successful run of `AzureFunctions.provision` the
application settings written back equal the settings read from the
function app with exactly the three connection keys set to the persisted
config values (empty string when a config value is absent); every other
pre-existing setting is carried over unchanged. -/
theorem C4_settings_frame {E : Type} (env : AzureFunctionsEnv E)
    (h : (AzureFunctions.provision env).result = Except.ok true) :
    ∃ props, env.listApplicationSettings = Except.ok props ∧
      (AzureFunctions.provision env).written = some (injectedSettings env props) ∧
      injectedSettings env props "eventHubConnectionString" =
        some ((env.configGet ConfigKey.eventHubConnectionString).getD "") ∧
      injectedSettings env props "eventHubConnectionPath" =
        some ((env.configGet ConfigKey.eventHubConnectionPath).getD "") ∧
      injectedSettings env props "iotHubConnectionString" =
        some ((env.configGet ConfigKey.iotHubConnectionString).getD "") ∧
      ∀ k, k ≠ "eventHubConnectionString" → k ≠ "eventHubConnectionPath" →
        k ≠ "iotHubConnectionString" →
        injectedSettings env props k = (props.getD (fun _ => none)) k := by
  rcases provision_cases env with
    ⟨hext, heq⟩ | ⟨hpick, hfs, heq⟩ | ⟨s, e1, hp, hd, hc, heq⟩ | ⟨s, hp, hd, hc, heq⟩ |
    ⟨s, fid, msg, hp, hd, hc, hf, heq⟩ | ⟨s, fid, e1, hp, hd, hc, hf, hlas, heq⟩ |
    ⟨s, fid, props, e1, hp, hd, hc, hf, hlas, huas, heq⟩ |
    ⟨s, fid, props, hp, hd, hc, hf, hlas, huas, heq⟩
  · rw [heq] at h; simp at h
  · rw [heq] at h; simp at h
  · rw [heq] at h; simp at h
  · rw [heq] at h; simp at h
  · rw [heq] at h; simp at h
  · rw [heq] at h; simp at h
  · rw [heq] at h; simp at h
  · refine ⟨props, hlas, by rw [heq], by simp [injectedSettings],
      by simp [injectedSettings], by simp [injectedSettings], ?_⟩
    intro k h1 h2 h3
    simp [injectedSettings, h1, h2, h3]

/-- C6: every error raised by an external call inside
`AzureFunctions.create`, `AzureFunctions.provision` or
`AzureFunctions.deploy` is rethrown unchanged to the caller; the failing
call is performed exactly once (no retry) and no later external call is
attempted. -/
theorem C6_error_propagation {E : Type} (env : AzureFunctionsEnv E) (e : E) :
    (env.azureFunctionsPathExists = true → env.createNewProject = Except.error e →
      (AzureFunctions.create env).result = Except.error (FnErr.external e) ∧
      (AzureFunctions.create env).trace.count AFEvent.callCreateNewProject = 1) ∧
    (env.createFunctionApp = Except.error e →
      AFEvent.callCreateFunctionApp ∈ (AzureFunctions.provision env).trace →
      (AzureFunctions.provision env).result = Except.error (FnErr.external e) ∧
      (AzureFunctions.provision env).trace.count AFEvent.callCreateFunctionApp = 1 ∧
      AFEvent.callListAppSettings ∉ (AzureFunctions.provision env).trace ∧
      AFEvent.callUpdateAppSettings ∉ (AzureFunctions.provision env).trace) ∧
    (env.listApplicationSettings = Except.error e →
      AFEvent.callListAppSettings ∈ (AzureFunctions.provision env).trace →
      (AzureFunctions.provision env).result = Except.error (FnErr.external e) ∧
      (AzureFunctions.provision env).trace.count AFEvent.callListAppSettings = 1 ∧
      AFEvent.callUpdateAppSettings ∉ (AzureFunctions.provision env).trace) ∧
    (env.updateApplicationSettings = Except.error e →
      AFEvent.callUpdateAppSettings ∈ (AzureFunctions.provision env).trace →
      (AzureFunctions.provision env).result = Except.error (FnErr.external e) ∧
      (AzureFunctions.provision env).trace.count AFEvent.callUpdateAppSettings = 1) ∧
    (env.deployCommand = Except.error e →
      (AzureFunctions.deploy env).result = Except.error (FnErr.external e) ∧
      (AzureFunctions.deploy env).trace.count AFEvent.callDeployCommand = 1) := by
  refine ⟨?_, ?_, ?_, ?_, ?_⟩
  · intro hpe hcnp
    constructor
    · simp [AzureFunctions.create, hpe, hcnp]
    · simp [AzureFunctions.create, hpe, hcnp]
  · intro hcfa hmem
    rcases provision_cases env with
      ⟨hext, heq⟩ | ⟨hpick, hfs, heq⟩ | ⟨s, e1, hp, hd, hc, heq⟩ | ⟨s, hp, hd, hc, heq⟩ |
      ⟨s, fid, msg, hp, hd, hc, hf, heq⟩ | ⟨s, fid, e1, hp, hd, hc, hf, hlas, heq⟩ |
      ⟨s, fid, props, e1, hp, hd, hc, hf, hlas, huas, heq⟩ |
      ⟨s, fid, props, hp, hd, hc, hf, hlas, huas, heq⟩
    · rw [heq] at hmem; simp at hmem
    · rw [heq] at hmem; simp at hmem
    · rw [hc] at hcfa
      injection hcfa with he
      subst he
      rw [heq]
      exact ⟨rfl, by simp [List.count_cons], by simp, by simp⟩
    · rcases hc with hc | hc <;> (rw [hc] at hcfa; simp at hcfa)
    · rw [hc] at hcfa; simp at hcfa
    · rw [hc] at hcfa; simp at hcfa
    · rw [hc] at hcfa; simp at hcfa
    · rw [hc] at hcfa; simp at hcfa
  · intro hlas2 hmem
    rcases provision_cases env with
      ⟨hext, heq⟩ | ⟨hpick, hfs, heq⟩ | ⟨s, e1, hp, hd, hc, heq⟩ | ⟨s, hp, hd, hc, heq⟩ |
      ⟨s, fid, msg, hp, hd, hc, hf, heq⟩ | ⟨s, fid, e1, hp, hd, hc, hf, hlas, heq⟩ |
      ⟨s, fid, props, e1, hp, hd, hc, hf, hlas, huas, heq⟩ |
      ⟨s, fid, props, hp, hd, hc, hf, hlas, huas, heq⟩
    · rw [heq] at hmem; simp at hmem
    · rw [heq] at hmem; simp at hmem
    · rw [heq] at hmem; simp at hmem
    · rw [heq] at hmem; simp at hmem
    · rw [heq] at hmem; simp at hmem
    · rw [hlas] at hlas2
      injection hlas2 with he
      subst he
      rw [heq]
      refine ⟨rfl, ?_, ?_⟩
      · simp [List.count_cons]
      · simp
    · rw [hlas] at hlas2; simp at hlas2
    · rw [hlas] at hlas2; simp at hlas2
  · intro huas2 hmem
    rcases provision_cases env with
      ⟨hext, heq⟩ | ⟨hpick, hfs, heq⟩ | ⟨s, e1, hp, hd, hc, heq⟩ | ⟨s, hp, hd, hc, heq⟩ |
      ⟨s, fid, msg, hp, hd, hc, hf, heq⟩ | ⟨s, fid, e1, hp, hd, hc, hf, hlas, heq⟩ |
      ⟨s, fid, props, e1, hp, hd, hc, hf, hlas, huas, heq⟩ |
      ⟨s, fid, props, hp, hd, hc, hf, hlas, huas, heq⟩
    · rw [heq] at hmem; simp at hmem
    · rw [heq] at hmem; simp at hmem
    · rw [heq] at hmem; simp at hmem
    · rw [heq] at hmem; simp at hmem
    · rw [heq] at hmem; simp at hmem
    · rw [heq] at hmem; simp at hmem
    · rw [huas] at huas2
      injection huas2 with he
      subst he
      rw [heq]
      refine ⟨rfl, ?_⟩
      simp [List.count_cons]
    · rw [huas] at huas2; simp at huas2
  · intro hdep
    constructor
    · simp [AzureFunctions.deploy, hdep]
    · simp [AzureFunctions.deploy, hdep]

/-- C8: dismissing the initial quick pick of `IoTHub.provision`, or
picking an item with an empty description in `AzureFunctions.provision`,
returns `false`, writes no config value and performs no external
create/update call. -/
theorem C8_dismissal_no_effect {E : Type} (envI : IoTHubEnv)
    (envF : AzureFunctionsEnv E) (fs : List AzureResourceFilter)
    (hI : envI.selection = none)
    (hext : envF.azureAccountExtension = some fs)
    (hF : envF.subscriptionPick = none ∨
      ∃ s, envF.subscriptionPick = some s ∧ s.description = "") :
    IoTHub.provision envI =
      ⟨Except.ok false, [], [IoTHubEvent.showQuickPick]⟩ ∧
    (AzureFunctions.provision envF).result = Except.ok false ∧
    (AzureFunctions.provision envF).updates = [] ∧
    (AzureFunctions.provision envF).written = none ∧
    AFEvent.callCreateFunctionApp ∉ (AzureFunctions.provision envF).trace ∧
    AFEvent.callUpdateAppSettings ∉ (AzureFunctions.provision envF).trace := by
  constructor
  · simp [IoTHub.provision, hI]
  · rcases provision_cases envF with
      ⟨hext2, heq⟩ | ⟨hpick, hfs, heq⟩ | ⟨s, e1, hp, hd, hc, heq⟩ | ⟨s, hp, hd, hc, heq⟩ |
      ⟨s, fid, msg, hp, hd, hc, hf, heq⟩ | ⟨s, fid, e1, hp, hd, hc, hf, hlas, heq⟩ |
      ⟨s, fid, props, e1, hp, hd, hc, hf, hlas, huas, heq⟩ |
      ⟨s, fid, props, hp, hd, hc, hf, hlas, huas, heq⟩
    · rw [hext] at hext2; simp at hext2
    · rw [heq]; refine ⟨rfl, rfl, rfl, ?_, ?_⟩ <;> simp
    all_goals
      rcases hF with hF | ⟨s2, hs2, hd2⟩
      · rw [hp] at hF; simp at hF
      · rw [hp] at hs2
        injection hs2 with he
        subst he
        exact absurd hd2 hd

/-- C9: whenever `createFunctionApp` returns a truthy function app id,
that id is persisted to the `functionAppId` config key first, before the
event hub config values, the credential or the id segments are validated;
so when `provision` subsequently throws, the id is already persisted. -/
theorem C9_eager_functionAppId_persist {E : Type} (env : AzureFunctionsEnv E)
    (fs : List AzureResourceFilter) (s : QuickPickItem) (fid : String)
    (hext : env.azureAccountExtension = some fs)
    (hp : env.subscriptionPick = some s)
    (hd : s.description ≠ "")
    (hc : env.createFunctionApp = Except.ok (some fid))
    (hf : fid ≠ "") :
    (AzureFunctions.provision env).updates.head? =
      some (ConfigKey.functionAppId, fid) ∧
    ∀ fe, (AzureFunctions.provision env).result = Except.error fe →
      (ConfigKey.functionAppId, fid) ∈ (AzureFunctions.provision env).updates := by
  rcases provision_cases env with
    ⟨hext2, heq⟩ | ⟨hpick, hfs, heq⟩ | ⟨s2, e1, hp2, hd2, hc2, heq⟩ |
    ⟨s2, hp2, hd2, hc2, heq⟩ |
    ⟨s2, fid2, msg, hp2, hd2, hc2, hf2, heq⟩ |
    ⟨s2, fid2, e1, hp2, hd2, hc2, hf2, hlas, heq⟩ |
    ⟨s2, fid2, props, e1, hp2, hd2, hc2, hf2, hlas, huas, heq⟩ |
    ⟨s2, fid2, props, hp2, hd2, hc2, hf2, hlas, huas, heq⟩
  · rw [hext] at hext2; simp at hext2
  · rcases hpick with hpick | ⟨s2, hs2, hd2⟩
    · rw [hp] at hpick; simp at hpick
    · rw [hp] at hs2
      injection hs2 with he
      subst he
      exact absurd hd2 hd
  · rw [hc] at hc2; simp at hc2
  · rcases hc2 with hc2 | hc2
    · rw [hc] at hc2; simp at hc2
    · rw [hc] at hc2
      simp at hc2
      exact absurd hc2 hf
  all_goals
    rw [hc] at hc2
    injection hc2 with he
    injection he with he2
    subst he2
    rw [heq]
    exact ⟨rfl, fun fe _ => by simp⟩

/-- Witness for C4 at a concrete successful environment. -/
theorem C4_witness :
    ∃ props, sampleAFEnvSuccess.listApplicationSettings = Except.ok props ∧
      (AzureFunctions.provision sampleAFEnvSuccess).written =
        some (injectedSettings sampleAFEnvSuccess props) ∧
      injectedSettings sampleAFEnvSuccess props "eventHubConnectionString" =
        some ((sampleAFEnvSuccess.configGet ConfigKey.eventHubConnectionString).getD "") ∧
      injectedSettings sampleAFEnvSuccess props "eventHubConnectionPath" =
        some ((sampleAFEnvSuccess.configGet ConfigKey.eventHubConnectionPath).getD "") ∧
      injectedSettings sampleAFEnvSuccess props "iotHubConnectionString" =
        some ((sampleAFEnvSuccess.configGet ConfigKey.iotHubConnectionString).getD "") ∧
      ∀ k, k ≠ "eventHubConnectionString" → k ≠ "eventHubConnectionPath" →
        k ≠ "iotHubConnectionString" →
        injectedSettings sampleAFEnvSuccess props k =
          (props.getD (fun _ => none)) k :=
  C4_settings_frame sampleAFEnvSuccess rfl

/-- Witness for C6: a failing `createFunctionApp` error is rethrown
unchanged. -/
theorem C6_witness :
    (AzureFunctions.provision sampleAFEnvCfaError).result =
      Except.error (FnErr.external "boom") :=
  ((C6_error_propagation sampleAFEnvCfaError "boom").2.1 rfl (by decide)).1

/-- Witness for C8 at concrete dismissal environments. -/
theorem C8_witness :
    IoTHub.provision sampleIoTHubEnvDismiss =
      ⟨Except.ok false, [], [IoTHubEvent.showQuickPick]⟩ ∧
    (AzureFunctions.provision sampleAFEnvDismiss).result = Except.ok false ∧
    (AzureFunctions.provision sampleAFEnvDismiss).updates = [] ∧
    (AzureFunctions.provision sampleAFEnvDismiss).written = none ∧
    AFEvent.callCreateFunctionApp ∉
      (AzureFunctions.provision sampleAFEnvDismiss).trace ∧
    AFEvent.callUpdateAppSettings ∉
      (AzureFunctions.provision sampleAFEnvDismiss).trace :=
  C8_dismissal_no_effect sampleIoTHubEnvDismiss sampleAFEnvDismiss
    sampleFilters rfl rfl (Or.inl rfl)

/-- Witness for C9: a run that throws on the missing event hub config
still persisted the function app id. -/
theorem C9_witness :
    (AzureFunctions.provision sampleAFEnvGuardFail).updates.head? =
      some (ConfigKey.functionAppId, sampleAppId) ∧
    (ConfigKey.functionAppId, sampleAppId) ∈
      (AzureFunctions.provision sampleAFEnvGuardFail).updates := by
  have h := C9_eager_functionAppId_persist sampleAFEnvGuardFail sampleFilters
    samplePick sampleAppId rfl rfl (by decide) rfl (by decide)
  exact ⟨h.1, h.2 (FnErr.thrown "No event hub path or connection string found.") rfl⟩
